import Mathlib

/-!
Verification development for the reconnection-aware RPC session layer of
konnectors/cliskDevRunner.

The definitions below are a shallow embedding of:
* `WorkerService.handleUrlChange`, `WorkerService.enableUrlMonitoring` and the
  `framenavigated` handler registered by it (src/src/services/worker-service.js);
* `CliskPage.setupPostMeCommunication` (src/src/clisk-page.js);
* `PilotService.executeWithUrlChangeRetry` and `PilotService._setWorkerState`
  (src/src/services/pilot-service.js).

The asynchronous JavaScript code is embedded as pure functions over an explicit
state, with the external world (Playwright page, browser context, connector
loader, post-me handshake) supplied as an environment record.  Each function
returns, besides its value, the ordered list of observable effects it performs
and the ordered list of settle calls (`resolve`/`reject`) it makes on the
shared reconnection promise, each stamped with the (virtual) number of
milliseconds elapsed since the function was entered.  Timers (the 15 s episode
ceiling and the 10 s handshake race) are modelled by comparing these stamps.
-/

namespace CliskDevRunner

/-- JavaScript `s.includes(pat)`: `pat` occurs as a contiguous substring of `s`. -/
def strContains (s pat : String) : Bool := decide (pat.data <:+: s.data)

/-- JavaScript `s.startsWith(pat)`. -/
def strStarts (s pat : String) : Bool := pat.data.isPrefixOf s.data

/-- The `isPageClosedError` classification of `handleUrlChange`
(worker-service.js lines 304-308): the three message fragments that mark a
benign page-closed failure. -/
def isPageClosedMsg (msg : String) : Bool :=
  strContains msg "Target page, context or browser has been closed" ||
  strContains msg "Page was closed during handshake initialization" ||
  strContains msg "Page was closed before handshake could complete"

/-- Classification used by `executeWithUrlChangeRetry` (pilot-service.js
lines 356-359): URL-change / execution-context-destroyed errors. -/
def isUrlChangeError (msg : String) : Bool :=
  strStarts msg "URL_CHANGE_DETECTED" ||
  strContains msg "Execution context was destroyed" ||
  strStarts msg "EXECUTION_CONTEXT_DESTROYED"

/-- Spec-side classification: an error message is timeout-classed when it
mentions a timeout.  Used only to state claims about timeout failures. -/
def timeoutClassed (msg : String) : Bool := strContains msg "timeout"

/-- Observable effects of the embedded functions, in program order. -/
inductive Effect where
  | emitUrlChange
  | emitReconnectionStart
  | closeConnection
  | closeErrorSwallowed
  | waitStabilize
  | logBridgeAvailable
  | reinjectConnector
  | handshakeAttempt
  | emitReconnectionSuccess
  | emitReconnectionError
  | consoleErrorLog
  | exposeFn (name : String)
  | injectScript
  deriving DecidableEq, Repr

/-- A settle call made on the reconnection promise: `resolve(true)` or
`reject(new Error(msg))`. -/
inductive Settle where
  | resolveTrue
  | rejectMsg (msg : String)
  deriving DecidableEq, Repr

/-- Result of the `page.context()` checks in `handleUrlChange`
(worker-service.js lines 178-188). -/
inductive CtxCheck where
  | ok
  | disconnected
  | inaccessible
  deriving DecidableEq, Repr

/-- Environment of one `handleUrlChange` run: everything the surrounding world
(Playwright page, context, connector loader, post-me handshake) decides.
Durations are in milliseconds. -/
structure HUEnv where
  /-- `this.workerPage.getPage()` is non-null. -/
  pageAvailable : Bool
  /-- `page.isClosed()` at the first check (line 171). -/
  pageClosedAtStart : Bool
  /-- outcome of the `page.context()` checks (lines 178-188). -/
  ctx : CtxCheck
  /-- `this.workerPage.getConnection()` is non-null (line 210). -/
  hasConnection : Bool
  /-- `connection.close()` throws (swallowed, line 215). -/
  closeThrows : Bool
  /-- `page.isClosed()` at the re-check after closing (line 222). -/
  pageClosedAfterClose : Bool
  /-- error thrown by `page.waitForTimeout(2000)` (line 232), if any. -/
  stabilizeError : Option String
  /-- `this.workerPage.connectorPath && this.workerPage.loaderFunction` (line 248). -/
  hasConnector : Bool
  /-- error thrown by `loaderFunction(page, connectorPath)` (line 251), if any. -/
  injectError : Option String
  /-- duration of the connector re-injection. -/
  injectTime : Nat
  /-- `page.isClosed()` at the last check before handshake (line 266). -/
  pageClosedBeforeHandshake : Bool
  /-- error with which `initiateHandshake` rejects (line 274), if any. -/
  handshakeError : Option String
  /-- time until `initiateHandshake` settles; raced against the 10 s timer. -/
  handshakeTime : Nat
  deriving Repr

/-- Result of one `handleUrlChange` run. -/
structure HUResult where
  /-- a fresh reconnection promise was allocated by the guard at lines 151-157. -/
  newEpisode : Bool
  /-- observable effects in program order. -/
  effects : List Effect
  /-- settle calls on the reconnection promise in chronological order,
  including the 15 s episode-ceiling timer when it fires. -/
  settleCalls : List (Nat × Settle)
  /-- the run executed `this.currentReconnectionPromise.settled = true`. -/
  flagSet : Bool
  /-- the boolean return value of `handleUrlChange`. -/
  retVal : Bool
  deriving DecidableEq, Repr

/-- The 15-second episode-ceiling timer (worker-service.js lines 191-194):
armed right before the `try` block and cleared at `clearTime`; if it is still
armed at 15 000 ms it rejects the reconnection promise first. -/
def timerAdjust (clearTime : Nat) (settles : List (Nat × Settle)) :
    List (Nat × Settle) :=
  if 15000 < clearTime then
    (15000, Settle.rejectMsg "Reconnection timeout after 15 seconds") :: settles
  else settles

/-- The `catch` block of `handleUrlChange` (worker-service.js lines 300-333),
entered at time `t` with error message `msg`; `pre` are settle calls already
made inside the `try` block (the inline reject on connector re-injection
failure, line 255). -/
def catchPath (newEp : Bool) (effs : List Effect) (pre : List (Nat × Settle))
    (t : Nat) (msg : String) : HUResult :=
  if isPageClosedMsg msg then
    { newEpisode := newEp
      effects := effs
      settleCalls :=
        timerAdjust t (pre ++ [(t, Settle.rejectMsg "Reconnection cancelled due to page closure")])
      flagSet := true
      retVal := false }
  else
    { newEpisode := newEp
      effects := effs ++ [Effect.consoleErrorLog, Effect.emitReconnectionError]
      settleCalls := timerAdjust t (pre ++ [(t, Settle.rejectMsg msg)])
      flagSet := true
      retVal := false }

/-- `handleUrlChange` from the final page-validity check before the handshake
(worker-service.js lines 266-299), entered at time `t1` with effects `effs`
accumulated so far.  The handshake is raced against the 10 s timer
(lines 274-279). -/
def afterInject (newEp : Bool) (effs : List Effect) (t1 : Nat) (env : HUEnv) :
    HUResult :=
  if env.pageClosedBeforeHandshake then
    { newEpisode := newEp
      effects := effs
      settleCalls := timerAdjust t1 [(t1, Settle.rejectMsg "Page was closed before handshake")]
      flagSet := false
      retVal := false }
  else
    let effs2 := effs ++ [Effect.handshakeAttempt]
    if 10000 < env.handshakeTime then
      catchPath newEp effs2 [] (t1 + 10000) "Handshake timeout"
    else
      match env.handshakeError with
      | some m => catchPath newEp effs2 [] (t1 + env.handshakeTime) m
      | none =>
        { newEpisode := newEp
          effects := effs2 ++ [Effect.emitReconnectionSuccess]
          settleCalls :=
            timerAdjust (t1 + env.handshakeTime) [(t1 + env.handshakeTime, Settle.resolveTrue)]
          flagSet := true
          retVal := true }

/-- `WorkerService.handleUrlChange` (worker-service.js lines 144-334).
`reconn` is the state of `this.currentReconnectionPromise` on entry:
`none` when no promise exists yet, `some b` when one exists with
`settled = b`.  A pending episode is `some false`. -/
def handleUrlChange (monitoringEnabled : Bool) (reconn : Option Bool)
    (env : HUEnv) : HUResult :=
  if !monitoringEnabled then
    { newEpisode := false, effects := [], settleCalls := [], flagSet := false, retVal := false }
  else
    let newEp : Bool := match reconn with | none => true | some b => b
    let eff0 : List Effect := [Effect.emitUrlChange]
    if !env.pageAvailable || env.pageClosedAtStart then
      { newEpisode := newEp, effects := eff0
        settleCalls := [(0, Settle.rejectMsg "Page is closed")]
        flagSet := false, retVal := false }
    else
      match env.ctx with
      | CtxCheck.disconnected =>
        { newEpisode := newEp, effects := eff0
          settleCalls := [(0, Settle.rejectMsg "Browser context is disconnected")]
          flagSet := false, retVal := false }
      | CtxCheck.inaccessible =>
        { newEpisode := newEp, effects := eff0
          settleCalls := [(0, Settle.rejectMsg "Cannot access browser context")]
          flagSet := false, retVal := false }
      | CtxCheck.ok =>
        let eff1 := eff0 ++ [Effect.emitReconnectionStart]
        let eff2 := eff1 ++
          (if env.hasConnection then
            Effect.closeConnection ::
              (if env.closeThrows then [Effect.closeErrorSwallowed] else [])
          else [])
        if env.pageClosedAfterClose then
          { newEpisode := newEp, effects := eff2
            settleCalls := timerAdjust 0 [(0, Settle.rejectMsg "Page was closed during reconnection")]
            flagSet := false, retVal := false }
        else
          let eff3 := eff2 ++ [Effect.waitStabilize]
          match env.stabilizeError with
          | some m =>
            if strContains m "Target page, context or browser has been closed" then
              { newEpisode := newEp, effects := eff3
                settleCalls := timerAdjust 2000 [(2000, Settle.rejectMsg "Page closed during stabilization")]
                flagSet := false, retVal := false }
            else
              catchPath newEp eff3 [] 2000 m
          | none =>
            let eff4 := eff3 ++ [Effect.logBridgeAvailable]
            if env.hasConnector then
              match env.injectError with
              | some e =>
                catchPath newEp (eff4 ++ [Effect.reinjectConnector])
                  [(2000 + env.injectTime, Settle.rejectMsg e)] (2000 + env.injectTime) e
              | none =>
                afterInject newEp (eff4 ++ [Effect.reinjectConnector])
                  (2000 + env.injectTime) env
            else
              afterInject newEp eff4 2000 env

/-- Time of the first settle call on the reconnection promise (the moment the
promise actually settles); `0` when the run makes no settle call. -/
def firstSettleTime (r : HUResult) : Nat :=
  ((r.settleCalls.head?).map Prod.fst).getD 0

/-- First settle call of a run, if any. -/
def firstSettle (r : HUResult) : Option (Nat × Settle) :=
  r.settleCalls.head?

/-- An environment in which everything succeeds: page open, context connected,
a live connection to close, connector stored, injection immediate, handshake
succeeds after one second. -/
def happyEnv : HUEnv :=
  { pageAvailable := true
    pageClosedAtStart := false
    ctx := CtxCheck.ok
    hasConnection := true
    closeThrows := false
    pageClosedAfterClose := false
    stabilizeError := none
    hasConnector := true
    injectError := none
    injectTime := 0
    pageClosedBeforeHandshake := false
    handshakeError := none
    handshakeTime := 1000 }

/-! ### Navigation monitor (worker-service.js lines 64-110) -/

/-- Monitoring state of `WorkerService`: the `isMonitoringEnabled` flag, the
number of `framenavigated` listeners registered on the page, and the tracked
`currentUrl` (`none` = `null`). -/
structure MonitorState where
  enabled : Bool
  listeners : Nat
  currentUrl : Option String
  deriving DecidableEq, Repr

/-- Initial monitoring state of a freshly constructed `WorkerService`
(worker-service.js lines 18-20). -/
def initMonitorState : MonitorState :=
  { enabled := false, listeners := 0, currentUrl := none }

/-- `WorkerService.enableUrlMonitoring` (worker-service.js lines 64-110):
no-op when already enabled or when the page is unavailable; otherwise sets the
flag, registers one `framenavigated` listener and records the page's URL. -/
def enableUrlMonitoring (s : MonitorState) (pageAvailable : Bool)
    (pageUrl : String) : MonitorState :=
  if s.enabled then s
  else if !pageAvailable then s
  else { enabled := true, listeners := s.listeners + 1, currentUrl := some pageUrl }

/-- Fold `enableUrlMonitoring` over a sequence of calls, each with its own
page availability and page URL. -/
def runEnables (s : MonitorState) (calls : List (Bool × String)) : MonitorState :=
  calls.foldl (fun st c => enableUrlMonitoring st c.1 c.2) s

/-- The `framenavigated` handler registered by `enableUrlMonitoring`
(worker-service.js lines 80-104).  Returns the updated tracked URL and whether
the handler reaches the `handleUrlChange` call (i.e. the transition survives
every filter). -/
def onFrameNavigated (cur : Option String) (isMainFrame : Bool)
    (newUrl : String) : Option String × Bool :=
  if !isMainFrame then (cur, false)
  else
    match cur with
    | none => (some newUrl, false)
    | some old =>
      if newUrl = old then (some newUrl, false)
      else if newUrl = "about:blank" then (some newUrl, false)
      else (some newUrl, true)

/-! ### Page session: one-time bridge exposure (clisk-page.js lines 300-332) -/

/-- `CliskPage.setupPostMeCommunication`: exposes the two host-callable bridge
primitives only when `exposeFunctions && !functionsExposed`, then always
re-injects the page init script.  The state is the `functionsExposed` flag;
returns the new flag and the effects performed. -/
def setupPostMeCommunication (functionsExposed : Bool) (exposeFunctions : Bool) :
    Bool × List Effect :=
  if exposeFunctions && !functionsExposed then
    (true, [Effect.exposeFn "sendToPlaywright", Effect.exposeFn "sendPageLog",
            Effect.injectScript])
  else
    (functionsExposed, [Effect.injectScript])

/-- Fold `setupPostMeCommunication` over a sequence of calls (each call's
`exposeFunctions` argument given by the list), collecting all effects. -/
def runSetups (functionsExposed : Bool) (calls : List Bool) :
    Bool × List Effect :=
  match calls with
  | [] => (functionsExposed, [])
  | c :: cs =>
    let r := setupPostMeCommunication functionsExposed c
    let rest := runSetups r.1 cs
    (rest.1, r.2 ++ rest.2)

/-! ### Command retry executor (pilot-service.js lines 315-378) -/

/-- One step of the retry trace: the n-th command attempt, or the wait for
reconnection after a URL-change-classed failure. -/
inductive RetryEv where
  | attemptAt (i : Nat)
  | waitReconnection
  deriving DecidableEq, Repr

/-- Environment of one attempt of `executeWithUrlChangeRetry`:
`preWaitError` is a rejection of `waitForReconnectionIfInProgress` (line 324),
`race` the outcome of `Promise.race([commandFn(), urlChangePromise])`
(line 348), and `reconnWaitError` a rejection of
`waitForReconnectionAfterUrlChange` (line 363) when it is invoked. -/
structure AttemptSpec (α : Type) where
  preWaitError : Option String
  race : Except String α
  reconnWaitError : Option String
  deriving Repr

/-- The body of one loop iteration up to the race (pilot-service.js
lines 320-351): a rejection of the pre-wait propagates into the `catch`,
otherwise the race decides. -/
def attemptStep {α : Type} (spec : AttemptSpec α) : Except String α :=
  match spec.preWaitError with
  | some m => Except.error m
  | none => spec.race

/-- `const maxRetries = 3` (pilot-service.js line 316). -/
def maxRetries : Nat := 3

/-- The `while (retryCount < maxRetries)` loop of `executeWithUrlChangeRetry`.
`rc` is `retryCount`; `fuel` is `maxRetries - retryCount`, so `fuel = 0` is
the loop condition failing (the JS function then returns `undefined`,
modelled as `Except.ok none`).  Returns the result and the trace. -/
def retryLoop {α : Type} (env : Nat → AttemptSpec α) (name : String) :
    Nat → Nat → Except String (Option α) × List RetryEv
  | _, 0 => (Except.ok none, [])
  | rc, fuel + 1 =>
    match attemptStep (env rc) with
    | Except.ok v => (Except.ok (some v), [RetryEv.attemptAt rc])
    | Except.error msg =>
      if isUrlChangeError msg then
        match (env rc).reconnWaitError with
        | some werr =>
          (Except.error werr, [RetryEv.attemptAt rc, RetryEv.waitReconnection])
        | none =>
          if maxRetries ≤ rc + 1 then
            (Except.error (name ++ " failed after 3 retries due to URL changes"),
             [RetryEv.attemptAt rc, RetryEv.waitReconnection])
          else
            let rest := retryLoop env name (rc + 1) fuel
            (rest.1, RetryEv.attemptAt rc :: RetryEv.waitReconnection :: rest.2)
      else
        (Except.error msg, [RetryEv.attemptAt rc])

/-- `PilotService.executeWithUrlChangeRetry` (pilot-service.js lines 315-378):
the loop entered with `retryCount = 0`. -/
def executeWithUrlChangeRetry {α : Type} (env : Nat → AttemptSpec α)
    (name : String) : Except String (Option α) × List RetryEv :=
  retryLoop env name 0 maxRetries

/-! ### Pilot: `_setWorkerState` (pilot-service.js lines 233-306) -/

/-- The `normalizeUrl` closure of `_setWorkerState` (lines 251-258):
`new URL(url).href`, falling back to the raw string when parsing throws.
`parse` models the WHATWG `URL` constructor (`none` = throws). -/
def normalizeUrl (parse : String → Option String) (url : String) : String :=
  match parse url with
  | some href => href
  | none => url

/-- Effects of the pilot-side command body. -/
inductive PilotEffect where
  | navigate (url : String)
  | awaitReconnection
  deriving DecidableEq, Repr

/-- Return value of the `_setWorkerState` body. -/
inductive SWSResult where
  /-- the `if (!url)` guard (line 240): returns `undefined`. -/
  | noUrl
  /-- the short-circuit success `{success, url, duration: 0, alreadyAtUrl: true}`
  (lines 263-271); carries the normalized current URL it reports. -/
  | okAlready (url : String)
  /-- the navigated success `{success, url, duration}` (lines 285-289). -/
  | okNavigated (url : String)
  /-- a thrown error with its message. -/
  | errMsg (msg : String)
  deriving DecidableEq, Repr

/-- One run of the `_setWorkerState` body. -/
structure SWSRun where
  result : SWSResult
  /-- the worker page's URL after the run. -/
  pageUrl : String
  effects : List PilotEffect
  deriving DecidableEq, Repr

/-- The body of `PilotService._setWorkerState` (pilot-service.js
lines 233-306) for one attempt inside the retry wrapper.  `parse` models the
WHATWG `URL` constructor; `navFinal url` is the URL the browser lands on after
`page.goto(url)`; `navError` a rejection of `workerPage.navigate`;
`reconnResult` the settlement of `workerService.getReconnectionPromise()`. -/
def setWorkerState (parse : String → Option String) (navFinal : String → String)
    (navError : Option String) (reconnResult : Except String Bool)
    (pageUrl url : String) : SWSRun :=
  if url = "" then
    { result := SWSResult.noUrl, pageUrl := pageUrl, effects := [] }
  else
    let ncur := normalizeUrl parse pageUrl
    let ntgt := normalizeUrl parse url
    if ncur = ntgt then
      { result := SWSResult.okAlready ncur, pageUrl := pageUrl, effects := [] }
    else
      match navError with
      | some m =>
        { result := SWSResult.errMsg m, pageUrl := pageUrl
          effects := [PilotEffect.navigate url] }
      | none =>
        let p2 := navFinal url
        match reconnResult with
        | Except.ok true =>
          { result := SWSResult.okNavigated url, pageUrl := p2
            effects := [PilotEffect.navigate url, PilotEffect.awaitReconnection] }
        | Except.ok false =>
          { result := SWSResult.errMsg "Worker reconnection failed: Worker reconnection failed"
            pageUrl := p2
            effects := [PilotEffect.navigate url, PilotEffect.awaitReconnection] }
        | Except.error m =>
          { result := SWSResult.errMsg ("Worker reconnection failed: " ++ m)
            pageUrl := p2
            effects := [PilotEffect.navigate url, PilotEffect.awaitReconnection] }

/-- Number of navigations performed in a list of pilot effects. -/
def countNavigations (l : List PilotEffect) : Nat :=
  l.countP (fun e => match e with | PilotEffect.navigate _ => true | _ => false)

/-- Number of reconnection waits performed in a list of pilot effects. -/
def countReconnWaits (l : List PilotEffect) : Nat :=
  l.countP (fun e => match e with | PilotEffect.awaitReconnection => true | _ => false)

/-! ### Helper lemmas -/

/-- The catch block never changes which episode the run belongs to. -/
lemma catchPath_newEpisode (b : Bool) (effs : List Effect)
    (pre : List (Nat × Settle)) (t : Nat) (m : String) :
    (catchPath b effs pre t m).newEpisode = b := by
  unfold catchPath
  split <;> rfl

/-- The post-injection phase never changes which episode the run belongs to. -/
lemma afterInject_newEpisode (b : Bool) (effs : List Effect) (t1 : Nat)
    (env : HUEnv) : (afterInject b effs t1 env).newEpisode = b := by
  unfold afterInject
  split
  · rfl
  · split
    · exact catchPath_newEpisode ..
    · split
      · exact catchPath_newEpisode ..
      · rfl

/-- A run of `handleUrlChange` allocates a fresh reconnection promise exactly
when monitoring is enabled and no promise exists or the existing one is marked
settled (the guard at worker-service.js lines 151-157). -/
lemma handleUrlChange_newEpisode (m : Bool) (reconn : Option Bool) (env : HUEnv) :
    (handleUrlChange m reconn env).newEpisode =
      (m && (match reconn with | none => true | some b => b)) := by
  unfold handleUrlChange
  cases m with
  | false => rfl
  | true =>
    simp only [Bool.not_true, Bool.false_eq_true, if_false, Bool.true_and]
    split
    · rfl
    · split
      · rfl
      · rfl
      · split
        · rfl
        · split
          · split
            · rfl
            · exact catchPath_newEpisode ..
          · split
            · split
              · exact catchPath_newEpisode ..
              · exact afterInject_newEpisode ..
            · exact afterInject_newEpisode ..

/-! ### C1 -/

/-- C1, as stated, is false on the code: a `UrlChangeEvent` arriving while a
reconnection episode is pending is *not* dropped.  Concretely, with a pending
outcome (`some false`) and a fully healthy environment, `handleUrlChange`
still closes the connection, re-injects the connector and re-runs the
handshake. -/
theorem C1_counterexample :
    (handleUrlChange true (some false) happyEnv).effects.contains
        Effect.closeConnection = true ∧
    (handleUrlChange true (some false) happyEnv).effects.contains
        Effect.reinjectConnector = true ∧
    (handleUrlChange true (some false) happyEnv).effects.contains
        Effect.handshakeAttempt = true := by
  decide

/-- C1 (amended): while a reconnection episode's outcome is pending
(`some false`), a further `UrlChangeEvent` never allocates a second
`ReconnectionOutcome` — the pending outcome is reused and serves all waiters —
although the teardown/reinjection/handshake steps are run again. -/
theorem C1_amended_single_pending_outcome (env : HUEnv) :
    (handleUrlChange true (some false) env).newEpisode = false :=
  handleUrlChange_newEpisode true (some false) env

/-- Closed instance of `C1_amended_single_pending_outcome`. -/
theorem C1_amended_single_pending_outcome_witness :
    (handleUrlChange true (some false) happyEnv).newEpisode = false :=
  C1_amended_single_pending_outcome happyEnv

/-! ### C2 -/

/-- C2 is violated by the code: the early-abort path for a closed page
(worker-service.js lines 171-175) rejects the reconnection promise — settling
the outcome — but never executes `this.currentReconnectionPromise.settled =
true`, so the settled flag stays `false`; and the connector-re-injection
failure path (line 255 followed by line 328) performs two reject calls on the
same outcome. -/
theorem C2_code_bug_settle_without_flag :
    (handleUrlChange true none { happyEnv with pageClosedAtStart := true }).settleCalls
        = [(0, Settle.rejectMsg "Page is closed")] ∧
    (handleUrlChange true none { happyEnv with pageClosedAtStart := true }).flagSet
        = false ∧
    (handleUrlChange true none { happyEnv with injectError := some "boom" }).settleCalls
        = [(2000, Settle.rejectMsg "boom"), (2000, Settle.rejectMsg "boom")] ∧
    (handleUrlChange true none { happyEnv with injectError := some "boom" }).flagSet
        = true := by
  decide

/-! ### C3 -/

/-- C3: when the reconnection episode fails with a page-closed-classed error
(here: the handshake rejects with such a message), the failure is suppressed
from error logs — no `console.error`, no `reconnection:error` event — but the
`ReconnectionOutcome` still settles as a Failure (a single reject, delivered
to every waiter of the outcome promise) and the settled flag is set, so no
waiting command future hangs. -/
theorem C3_page_closed_benign (env : HUEnv) (reconn : Option Bool) (msg : String)
    (hpa : env.pageAvailable = true) (hpc : env.pageClosedAtStart = false)
    (hctx : env.ctx = CtxCheck.ok) (hpac : env.pageClosedAfterClose = false)
    (hstab : env.stabilizeError = none) (hconn : env.hasConnector = true)
    (hinj : env.injectError = none) (hpbh : env.pageClosedBeforeHandshake = false)
    (hhe : env.handshakeError = some msg) (hht : env.handshakeTime ≤ 10000)
    (hmsg : isPageClosedMsg msg = true)
    (htime : 2000 + env.injectTime + env.handshakeTime ≤ 15000) :
    (handleUrlChange true reconn env).effects.contains Effect.consoleErrorLog = false ∧
    (handleUrlChange true reconn env).effects.contains Effect.emitReconnectionError = false ∧
    (handleUrlChange true reconn env).settleCalls =
      [(2000 + env.injectTime + env.handshakeTime,
        Settle.rejectMsg "Reconnection cancelled due to page closure")] ∧
    (handleUrlChange true reconn env).flagSet = true ∧
    (handleUrlChange true reconn env).retVal = false := by
  obtain ⟨pa, pcs, cx, hc, ct, pcc, se, hcn, ie, it, pbh, he, ht⟩ := env
  simp only at hpa hpc hctx hpac hstab hconn hinj hpbh hhe hht htime
  subst hpa hpc hctx hpac hstab hconn hinj hpbh hhe
  have h10 : ¬ (10000 < ht) := by omega
  have h15 : ¬ (15000 < 2000 + it + ht) := by omega
  unfold handleUrlChange afterInject catchPath timerAdjust
  cases hc <;> cases ct <;> simp [h10, h15, hmsg]

/-- An otherwise healthy environment in which the handshake rejects with the
Playwright page-closed message. -/
def pageClosedHandshakeEnv : HUEnv :=
  { happyEnv with handshakeError := some "Target page, context or browser has been closed" }

/-- Closed instance of `C3_page_closed_benign` at a concrete environment in
which the handshake rejects with the Playwright page-closed message. -/
theorem C3_page_closed_benign_witness :
    (handleUrlChange true none pageClosedHandshakeEnv).effects.contains
        Effect.consoleErrorLog = false ∧
    (handleUrlChange true none pageClosedHandshakeEnv).settleCalls =
      [(3000, Settle.rejectMsg "Reconnection cancelled due to page closure")] := by
  have h := C3_page_closed_benign pageClosedHandshakeEnv
    none "Target page, context or browser has been closed"
    rfl rfl rfl rfl rfl rfl rfl rfl rfl (by decide) (by decide) (by decide)
  exact ⟨h.1, h.2.2.1⟩

/-! ### C4 -/

/-- C4, as stated, is false on the code: on a surviving `UrlChangeEvent` the
coordinator does *not* re-run the idempotent page-script injection — the
bridge/script setup is skipped entirely (only a log is emitted,
worker-service.js lines 243-245).  A fully successful reconnection run
contains no script-injection step. -/
theorem C4_counterexample :
    (handleUrlChange true none happyEnv).retVal = true ∧
    (handleUrlChange true none happyEnv).effects.contains Effect.injectScript = false := by
  decide

/-- C4 (amended): on a surviving `UrlChangeEvent` the coordinator closes the
existing Session best-effort (a throwing `close()` is swallowed, the run
continues identically), skips bridge registration *and* script injection,
re-injects the connector code, and re-runs the handshake racing its completion
against the 10-second timer: the steps occur exactly in the order
close → stabilize → reinject → handshake, and when the handshake exceeds
10 000 ms the outcome settles with the `Handshake timeout` rejection. -/
theorem C4_amended_teardown_order (env : HUEnv) (reconn : Option Bool)
    (hpa : env.pageAvailable = true) (hpc : env.pageClosedAtStart = false)
    (hctx : env.ctx = CtxCheck.ok) (hhc : env.hasConnection = true)
    (hpac : env.pageClosedAfterClose = false) (hstab : env.stabilizeError = none)
    (hconn : env.hasConnector = true) (hinj : env.injectError = none)
    (hpbh : env.pageClosedBeforeHandshake = false) :
    (env.handshakeError = none → env.handshakeTime ≤ 10000 →
      2000 + env.injectTime + env.handshakeTime ≤ 15000 →
      (handleUrlChange true reconn env).effects =
        [Effect.emitUrlChange, Effect.emitReconnectionStart, Effect.closeConnection] ++
        (if env.closeThrows then [Effect.closeErrorSwallowed] else []) ++
        [Effect.waitStabilize, Effect.logBridgeAvailable, Effect.reinjectConnector,
         Effect.handshakeAttempt, Effect.emitReconnectionSuccess] ∧
      (handleUrlChange true reconn env).effects.contains Effect.injectScript = false ∧
      (handleUrlChange true reconn env).effects.contains
          (Effect.exposeFn "sendToPlaywright") = false ∧
      (handleUrlChange true reconn env).effects.contains
          (Effect.exposeFn "sendPageLog") = false ∧
      (handleUrlChange true reconn env).retVal = true) ∧
    (10000 < env.handshakeTime → 2000 + env.injectTime + 10000 ≤ 15000 →
      firstSettle (handleUrlChange true reconn env) =
        some (2000 + env.injectTime + 10000, Settle.rejectMsg "Handshake timeout")) := by
  obtain ⟨pa, pcs, cx, hc, ct, pcc, se, hcn, ie, it, pbh, he, ht⟩ := env
  simp only at hpa hpc hctx hhc hpac hstab hconn hinj hpbh
  subst hpa hpc hctx hhc hpac hstab hconn hinj hpbh
  constructor
  · intro hhe hht htime
    simp only at hhe hht htime
    subst hhe
    have h10 : ¬ (10000 < ht) := by omega
    have h15 : ¬ (15000 < 2000 + it + ht) := by omega
    unfold handleUrlChange afterInject timerAdjust
    cases ct <;> simp [h10, h15]
  · intro hstuck htime
    simp only at hstuck htime
    have h15 : ¬ (15000 < 2000 + it + 10000) := by omega
    unfold handleUrlChange afterInject catchPath timerAdjust firstSettle
    have hpcm : isPageClosedMsg "Handshake timeout" = false := by decide
    cases ct <;> simp [hstuck, h15, hpcm]

/-- Closed instance of `C4_amended_teardown_order`: the happy path performs
the amended step sequence, and a stuck handshake settles with the
`Handshake timeout` rejection at 12 000 ms. -/
theorem C4_amended_teardown_order_witness :
    (handleUrlChange true none happyEnv).effects =
      [Effect.emitUrlChange, Effect.emitReconnectionStart, Effect.closeConnection,
       Effect.waitStabilize, Effect.logBridgeAvailable, Effect.reinjectConnector,
       Effect.handshakeAttempt, Effect.emitReconnectionSuccess] ∧
    firstSettle (handleUrlChange true none { happyEnv with handshakeTime := 99999 }) =
      some (12000, Settle.rejectMsg "Handshake timeout") := by
  constructor
  · have h := (C4_amended_teardown_order happyEnv none
      rfl rfl rfl rfl rfl rfl rfl rfl rfl).1 rfl (by decide) (by decide)
    simpa using h.1
  · exact (C4_amended_teardown_order { happyEnv with handshakeTime := 99999 } none
      rfl rfl rfl rfl rfl rfl rfl rfl rfl).2 (by decide) (by decide)

/-! ### C5 -/

/-- The retry loop reads the environment only at the indices of the attempts
it can still make. -/
lemma retryLoop_congr {α : Type} (name : String) :
    ∀ (fuel rc : Nat) (env env' : Nat → AttemptSpec α),
      (∀ i, rc ≤ i → i < rc + fuel → env i = env' i) →
      retryLoop env name rc fuel = retryLoop env' name rc fuel := by
  intro fuel
  induction fuel with
  | zero => intro rc env env' _; rfl
  | succ n ih =>
    intro rc env env' h
    have he : env rc = env' rc := h rc (Nat.le_refl rc) (by omega)
    have hrec : retryLoop env name (rc + 1) n = retryLoop env' name (rc + 1) n :=
      ih (rc + 1) env env' (fun i h1 h2 => h i (by omega) (by omega))
    simp only [retryLoop, he, hrec]

/-- C5: the command retry executor makes at most 3 attempts (its behaviour
depends only on the first three attempt environments); an error that is not
URL-change-classed surfaces immediately with no retry; a URL-change-classed
error causes a wait for reconnection and a retry consuming one attempt; and
three URL-change-classed failures raise the terminal error naming the command
and the attempt count. -/
theorem C5_retry_executor :
    (∀ (α : Type) (env env' : Nat → AttemptSpec α) (name : String),
      (∀ i, i < 3 → env i = env' i) →
      executeWithUrlChangeRetry env name = executeWithUrlChangeRetry env' name) ∧
    (∀ (α : Type) (env : Nat → AttemptSpec α) (name m : String),
      attemptStep (env 0) = Except.error m → isUrlChangeError m = false →
      executeWithUrlChangeRetry env name = (Except.error m, [RetryEv.attemptAt 0])) ∧
    (∀ (α : Type) (env : Nat → AttemptSpec α) (name m : String) (v : α),
      attemptStep (env 0) = Except.error m → isUrlChangeError m = true →
      (env 0).reconnWaitError = none → attemptStep (env 1) = Except.ok v →
      executeWithUrlChangeRetry env name =
        (Except.ok (some v),
         [RetryEv.attemptAt 0, RetryEv.waitReconnection, RetryEv.attemptAt 1])) ∧
    (∀ (α : Type) (env : Nat → AttemptSpec α) (name : String) (ms : Nat → String),
      (∀ i, i < 3 → attemptStep (env i) = Except.error (ms i) ∧
        isUrlChangeError (ms i) = true ∧ (env i).reconnWaitError = none) →
      executeWithUrlChangeRetry env name =
        (Except.error (name ++ " failed after 3 retries due to URL changes"),
         [RetryEv.attemptAt 0, RetryEv.waitReconnection, RetryEv.attemptAt 1,
          RetryEv.waitReconnection, RetryEv.attemptAt 2, RetryEv.waitReconnection])) := by
  refine ⟨?_, ?_, ?_, ?_⟩
  · intro α env env' name h
    unfold executeWithUrlChangeRetry maxRetries
    exact retryLoop_congr name 3 0 env env' (fun i h1 h2 => h i (by omega))
  · intro α env name m h0 hu
    simp [executeWithUrlChangeRetry, maxRetries, retryLoop, h0, hu]
  · intro α env name m v h0 hu hw h1
    simp [executeWithUrlChangeRetry, maxRetries, retryLoop, h0, hu, hw, h1]
  · intro α env name ms h
    obtain ⟨h0, hu0, hw0⟩ := h 0 (by omega)
    obtain ⟨h1, hu1, hw1⟩ := h 1 (by omega)
    obtain ⟨h2, hu2, hw2⟩ := h 2 (by omega)
    simp [executeWithUrlChangeRetry, maxRetries, retryLoop,
      h0, hu0, hw0, h1, hu1, hw1, h2, hu2, hw2]

/-- An attempt environment whose first attempt fails with an application
error, used to instantiate `C5_retry_executor`. -/
def appErrorEnv : Nat → AttemptSpec Unit := fun _ =>
  { preWaitError := none, race := Except.error "boom", reconnWaitError := none }

/-- An attempt environment in which every attempt is preempted by a URL
change, used to instantiate `C5_retry_executor`. -/
def alwaysUrlChangeEnv : Nat → AttemptSpec Unit := fun _ =>
  { preWaitError := none
    race := Except.error "URL_CHANGE_DETECTED: a -> b"
    reconnWaitError := none }

/-- Closed instance of `C5_retry_executor`: an application error surfaces
immediately, and three URL-change preemptions raise the terminal error naming
the command and the attempt count. -/
theorem C5_retry_executor_witness :
    executeWithUrlChangeRetry appErrorEnv "runInWorker" =
      (Except.error "boom", [RetryEv.attemptAt 0]) ∧
    executeWithUrlChangeRetry alwaysUrlChangeEnv "runInWorker" =
      (Except.error "runInWorker failed after 3 retries due to URL changes",
       [RetryEv.attemptAt 0, RetryEv.waitReconnection, RetryEv.attemptAt 1,
        RetryEv.waitReconnection, RetryEv.attemptAt 2, RetryEv.waitReconnection]) := by
  constructor
  · exact C5_retry_executor.2.1 Unit appErrorEnv "runInWorker" "boom" rfl (by decide)
  · exact C5_retry_executor.2.2.2 Unit alwaysUrlChangeEnv "runInWorker"
      (fun _ => "URL_CHANGE_DETECTED: a -> b")
      (fun i _ =>
        ⟨rfl, (by decide : isUrlChangeError "URL_CHANGE_DETECTED: a -> b" = true), rfl⟩)

/-! ### C6 -/

/-- C6: when the worker's current URL already normalizes equal to the target,
`setWorkerState` returns the short-circuit success with no navigation at all;
and two successive calls with the same normalized target URL perform exactly
one navigation and exactly one reconnection wait — the second call
short-circuits.  The hypotheses state that the target URL parses stably: the
browser lands on a URL normalizing equal to the target (`hnav`), as
`new URL(url).href` guarantees for a well-formed URL. -/
theorem C6_setWorkerState_idempotent :
    (∀ (parse : String → Option String) (navFinal : String → String)
        (navError : Option String) (rr : Except String Bool) (pageUrl url : String),
      url ≠ "" → normalizeUrl parse pageUrl = normalizeUrl parse url →
      setWorkerState parse navFinal navError rr pageUrl url =
        { result := SWSResult.okAlready (normalizeUrl parse pageUrl)
          pageUrl := pageUrl, effects := [] }) ∧
    (∀ (parse : String → Option String) (navFinal : String → String)
        (pageUrl u1 u2 : String),
      u1 ≠ "" → u2 ≠ "" →
      normalizeUrl parse u1 = normalizeUrl parse u2 →
      normalizeUrl parse (navFinal u1) = normalizeUrl parse u1 →
      normalizeUrl parse pageUrl ≠ normalizeUrl parse u1 →
      countNavigations (setWorkerState parse navFinal none (Except.ok true) pageUrl u1).effects +
        countNavigations (setWorkerState parse navFinal none (Except.ok true)
          (setWorkerState parse navFinal none (Except.ok true) pageUrl u1).pageUrl u2).effects
        = 1 ∧
      countReconnWaits (setWorkerState parse navFinal none (Except.ok true) pageUrl u1).effects +
        countReconnWaits (setWorkerState parse navFinal none (Except.ok true)
          (setWorkerState parse navFinal none (Except.ok true) pageUrl u1).pageUrl u2).effects
        = 1 ∧
      (setWorkerState parse navFinal none (Except.ok true)
          (setWorkerState parse navFinal none (Except.ok true) pageUrl u1).pageUrl u2).result
        = SWSResult.okAlready (normalizeUrl parse u1)) := by
  constructor
  · intro parse navFinal navError rr pageUrl url hne heq
    unfold setWorkerState
    simp [hne, heq]
  · intro parse navFinal pageUrl u1 u2 h1 h2 h12 hnav h0
    have hrun1 : setWorkerState parse navFinal none (Except.ok true) pageUrl u1 =
        { result := SWSResult.okNavigated u1, pageUrl := navFinal u1
          effects := [PilotEffect.navigate u1, PilotEffect.awaitReconnection] } := by
      unfold setWorkerState
      simp [h1, h0]
    have hrun2 : setWorkerState parse navFinal none (Except.ok true) (navFinal u1) u2 =
        { result := SWSResult.okAlready (normalizeUrl parse (navFinal u1))
          pageUrl := navFinal u1, effects := [] } := by
      unfold setWorkerState
      simp [h2, hnav.trans h12]
    rw [hrun1]
    simp only
    rw [hrun2]
    refine ⟨?_, ?_, ?_⟩
    · simp [countNavigations]
    · simp [countReconnWaits]
    · simp [hnav, h12]

/-- Closed instance of `C6_setWorkerState_idempotent`: with identity parsing,
navigating twice to the same URL from `about:blank` performs exactly one
navigation, and a call targeting the current URL short-circuits. -/
theorem C6_setWorkerState_idempotent_witness :
    setWorkerState some id none (Except.ok true) "https://example.com/" "https://example.com/" =
      { result := SWSResult.okAlready "https://example.com/"
        pageUrl := "https://example.com/", effects := [] } ∧
    countNavigations (setWorkerState some id none (Except.ok true)
        "about:blank" "https://example.com/").effects +
      countNavigations (setWorkerState some id none (Except.ok true)
        (setWorkerState some id none (Except.ok true)
          "about:blank" "https://example.com/").pageUrl "https://example.com/").effects
      = 1 := by
  constructor
  · exact C6_setWorkerState_idempotent.1 some id none (Except.ok true)
      "https://example.com/" "https://example.com/" (by decide) rfl
  · exact (C6_setWorkerState_idempotent.2 some id
      "about:blank" "https://example.com/" "https://example.com/"
      (by decide) (by decide) rfl rfl (by decide)).1

/-! ### C7 -/

/-- If every settle call of the underlying path happens no later than the
moment the 15 s timer is cleared, the first settle of the timer-adjusted run
happens by 15 000 ms. -/
lemma timerAdjust_first_le (t : Nat) (l : List (Nat × Settle))
    (h : ∀ x ∈ l, x.1 ≤ t) :
    ((timerAdjust t l).head?.map Prod.fst).getD 0 ≤ 15000 := by
  unfold timerAdjust
  split
  · simp
  · rename_i h15
    cases l with
    | nil => simp
    | cons a as =>
      have h1 := h a (List.mem_cons_self a as)
      simp only [List.head?_cons, Option.map_some', Option.getD_some]
      omega

/-- The catch block settles the outcome by 15 000 ms. -/
lemma catchPath_first_le (b : Bool) (effs : List Effect)
    (pre : List (Nat × Settle)) (t : Nat) (m : String)
    (h : ∀ x ∈ pre, x.1 ≤ t) :
    firstSettleTime (catchPath b effs pre t m) ≤ 15000 := by
  unfold catchPath firstSettleTime
  split <;>
  · apply timerAdjust_first_le
    intro x hx
    rcases List.mem_append.mp hx with h1 | h2
    · exact h x h1
    · simp at h2
      subst h2
      simp

/-- The post-injection phase settles the outcome by 15 000 ms. -/
lemma afterInject_first_le (b : Bool) (effs : List Effect) (t1 : Nat)
    (env : HUEnv) : firstSettleTime (afterInject b effs t1 env) ≤ 15000 := by
  unfold afterInject
  repeat' split
  all_goals
    first
    | (apply catchPath_first_le; intro x hx; simp at hx)
    | (unfold firstSettleTime; apply timerAdjust_first_le; intro x hx;
       simp at hx <;> (subst hx; simp))

/-- Every run of `handleUrlChange` that settles the outcome does so by
15 000 ms: the episode-ceiling timer fires first on any slower path. -/
lemma handleUrlChange_first_le (m : Bool) (reconn : Option Bool) (env : HUEnv) :
    firstSettleTime (handleUrlChange m reconn env) ≤ 15000 := by
  unfold handleUrlChange
  repeat' split
  all_goals
    first
    | (apply afterInject_first_le)
    | (apply catchPath_first_le; intro x hx; simp at hx <;> (subst hx; simp))
    | (unfold firstSettleTime; apply timerAdjust_first_le; intro x hx;
       simp at hx <;> (subst hx; simp))
    | (simp [firstSettleTime, timerAdjust])

/-- A substring of `m` is a substring of `a ++ m`. -/
lemma strContains_append_right (a m pat : String)
    (h : strContains m pat = true) : strContains (a ++ m) pat = true := by
  unfold strContains at h ⊢
  rw [decide_eq_true_eq] at h ⊢
  obtain ⟨s, t, hst⟩ := h
  exact ⟨a.data ++ s, t, by rw [String.data_append, ← hst]; simp⟩

/-- The pilot-side race error produced when the reconnection promise rejects
with the 15 s episode-ceiling message. -/
def timeoutRejectedEnv : Nat → AttemptSpec Unit := fun _ =>
  { preWaitError := none
    race := Except.error "Worker reconnection failed: Reconnection timeout after 15 seconds"
    reconnWaitError := none }

/-- C7: every reconnection episode settles its outcome within the absolute
15-second ceiling; a stuck handshake makes the first settle a rejection with
a timeout-classed message (either the 10 s `Handshake timeout` or — when the
path is slower than the ceiling — the 15 s `Reconnection timeout after 15
seconds`); a pending `setWorkerState` awaiting such a rejected outcome throws
a timeout-classed `Worker reconnection failed` error; and the retry executor
surfaces that error immediately, so the caller rejects within the ceiling. -/
theorem C7_reconnection_ceiling :
    (∀ (m : Bool) (reconn : Option Bool) (env : HUEnv),
      firstSettleTime (handleUrlChange m reconn env) ≤ 15000) ∧
    (∀ (reconn : Option Bool) (env : HUEnv),
      env.pageAvailable = true → env.pageClosedAtStart = false →
      env.ctx = CtxCheck.ok → env.pageClosedAfterClose = false →
      env.stabilizeError = none → env.hasConnector = true →
      env.injectError = none → env.pageClosedBeforeHandshake = false →
      10000 < env.handshakeTime →
      ∃ t msg, firstSettle (handleUrlChange true reconn env) =
          some (t, Settle.rejectMsg msg) ∧ t ≤ 15000 ∧ timeoutClassed msg = true) ∧
    (∀ (parse : String → Option String) (navFinal : String → String)
        (pageUrl url m : String),
      url ≠ "" →
      normalizeUrl parse pageUrl ≠ normalizeUrl parse url →
      timeoutClassed m = true →
      (setWorkerState parse navFinal none (Except.error m) pageUrl url).result =
        SWSResult.errMsg ("Worker reconnection failed: " ++ m) ∧
      timeoutClassed ("Worker reconnection failed: " ++ m) = true) ∧
    (executeWithUrlChangeRetry timeoutRejectedEnv "setWorkerState" =
      (Except.error "Worker reconnection failed: Reconnection timeout after 15 seconds",
       [RetryEv.attemptAt 0])) := by
  refine ⟨handleUrlChange_first_le, ?_, ?_, ?_⟩
  · intro reconn env hpa hpc hctx hpac hstab hconn hinj hpbh hstuck
    obtain ⟨pa, pcs, cx, hc, ct, pcc, se, hcn, ie, it, pbh, he, ht⟩ := env
    simp only at hpa hpc hctx hpac hstab hconn hinj hpbh hstuck
    subst hpa hpc hctx hpac hstab hconn hinj hpbh
    have hpcm : isPageClosedMsg "Handshake timeout" = false := by decide
    unfold handleUrlChange afterInject catchPath timerAdjust firstSettle
    by_cases hb : 15000 < 2000 + it + 10000
    · refine ⟨15000, "Reconnection timeout after 15 seconds", ?_, by omega, by decide⟩
      cases hc <;> cases ct <;> simp [hstuck, hpcm, hb]
    · refine ⟨2000 + it + 10000, "Handshake timeout", ?_, by omega, by decide⟩
      cases hc <;> cases ct <;> simp [hstuck, hpcm, hb]
  · intro parse navFinal pageUrl url m hne hurl htc
    constructor
    · unfold setWorkerState
      simp [hne, hurl]
    · exact strContains_append_right "Worker reconnection failed: " m "timeout" htc
  · exact rfl

/-- Closed instance of `C7_reconnection_ceiling`: with a stuck handshake the
outcome settles at 12 000 ms with the `Handshake timeout` rejection, and the
pending `setWorkerState` throws the wrapped timeout-classed error. -/
theorem C7_reconnection_ceiling_witness :
    firstSettleTime (handleUrlChange true none { happyEnv with handshakeTime := 99999 })
      ≤ 15000 ∧
    (setWorkerState some id none
        (Except.error "Reconnection timeout after 15 seconds")
        "about:blank" "https://example.com/").result =
      SWSResult.errMsg "Worker reconnection failed: Reconnection timeout after 15 seconds" := by
  constructor
  · exact C7_reconnection_ceiling.1 true none { happyEnv with handshakeTime := 99999 }
  · exact (C7_reconnection_ceiling.2.2.1 some id
      "about:blank" "https://example.com/" "Reconnection timeout after 15 seconds"
      (by decide) (by decide) (by decide)).1

/-! ### C8 -/

/-- C8: the `framenavigated` handler reaches the `handleUrlChange` call (and
hence can produce a reconnection episode) exactly for a main-frame transition
with a previously tracked URL, a different new URL, and a new URL that is not
`about:blank`; every other observed transition is filtered. -/
theorem C8_monitor_filters (cur : Option String) (isMainFrame : Bool)
    (newUrl : String) :
    (onFrameNavigated cur isMainFrame newUrl).2 = true ↔
      (isMainFrame = true ∧
        ∃ old, cur = some old ∧ newUrl ≠ old ∧ newUrl ≠ "about:blank") := by
  unfold onFrameNavigated
  cases isMainFrame with
  | false => simp
  | true =>
    cases cur with
    | none => simp
    | some old =>
      by_cases h1 : newUrl = old
      · simp [h1]
      · by_cases h2 : newUrl = "about:blank"
        · simp [h1, h2]
        · simp [h1, h2]

/-- Closed instance of `C8_monitor_filters`: a genuine cross-origin main-frame
transition reaches `handleUrlChange`, and an `about:blank` transition is
filtered. -/
theorem C8_monitor_filters_witness :
    (onFrameNavigated (some "https://a.example/") true "https://b.example/").2 = true ∧
    (onFrameNavigated (some "https://a.example/") true "about:blank").2 = false := by
  constructor
  · exact (C8_monitor_filters (some "https://a.example/") true "https://b.example/").mpr
      ⟨rfl, "https://a.example/", rfl, by decide, by decide⟩
  · have h := C8_monitor_filters (some "https://a.example/") true "about:blank"
    by_cases hb : (onFrameNavigated (some "https://a.example/") true "about:blank").2 = true
    · obtain ⟨-, old, -, -, hne⟩ := h.mp hb
      exact absurd rfl hne
    · simpa using hb

/-! ### C9 -/

/-- No effect of the list registers a host-callable bridge primitive. -/
def noExpose (l : List Effect) : Bool :=
  l.all (fun e => match e with | Effect.exposeFn _ => false | _ => true)

/-- `noExpose` distributes over append. -/
lemma noExpose_append (l1 l2 : List Effect) :
    noExpose (l1 ++ l2) = (noExpose l1 && noExpose l2) := by
  simp [noExpose]

/-- The catch block registers no bridge primitive beyond those already in its
accumulated effects. -/
lemma catchPath_noExpose (b : Bool) (effs : List Effect)
    (pre : List (Nat × Settle)) (t : Nat) (m : String)
    (h : noExpose effs = true) :
    noExpose (catchPath b effs pre t m).effects = true := by
  unfold catchPath
  split
  · exact h
  · rw [noExpose_append, h]
    decide

/-- The post-injection phase registers no bridge primitive beyond those
already in its accumulated effects. -/
lemma afterInject_noExpose (b : Bool) (effs : List Effect) (t1 : Nat)
    (env : HUEnv) (h : noExpose effs = true) :
    noExpose (afterInject b effs t1 env).effects = true := by
  unfold afterInject
  repeat' split
  all_goals
    first
    | exact h
    | (apply catchPath_noExpose; rw [noExpose_append, h]; decide)
    | (rw [noExpose_append, noExpose_append, h]; decide)

/-- A reconnection run never registers a bridge primitive. -/
lemma handleUrlChange_noExpose (m : Bool) (reconn : Option Bool) (env : HUEnv) :
    noExpose (handleUrlChange m reconn env).effects = true := by
  unfold handleUrlChange
  repeat' split
  all_goals
    first
    | (apply afterInject_noExpose; simp [noExpose]; try (split_ifs <;> simp))
    | (apply catchPath_noExpose; simp [noExpose]; try (split_ifs <;> simp))
    | (simp [noExpose]; try (split_ifs <;> simp))

/-- For any name, the one-time exposure block contributes at most one
registration of the primitive with that name. -/
lemma count_expose_block_le (n : String) :
    ([Effect.exposeFn "sendToPlaywright", Effect.exposeFn "sendPageLog",
      Effect.injectScript].count (Effect.exposeFn n)) ≤ 1 := by
  by_cases h1 : n = "sendToPlaywright"
  · subst h1
    decide
  · by_cases h2 : n = "sendPageLog"
    · subst h2
      decide
    · simp [List.count_cons, h1, h2]

/-- Once the `functionsExposed` flag is set, no later setup call registers a
primitive. -/
lemma runSetups_true_count (n : String) (cs : List Bool) :
    ((runSetups true cs).2.count (Effect.exposeFn n)) = 0 := by
  induction cs with
  | nil => simp [runSetups]
  | cons c cs ih =>
    cases c <;> simp [runSetups, setupPostMeCommunication, List.count_append, ih]

/-- Over a page's whole lifetime (any sequence of setup calls starting from an
unset flag), each bridge primitive is registered at most once. -/
lemma runSetups_false_count_le (n : String) (cs : List Bool) :
    ((runSetups false cs).2.count (Effect.exposeFn n)) ≤ 1 := by
  induction cs with
  | nil => simp [runSetups]
  | cons c cs ih =>
    cases c with
    | false =>
      simpa [runSetups, setupPostMeCommunication, List.count_append] using ih
    | true =>
      have h0 := runSetups_true_count n cs
      by_cases h1 : n = "sendToPlaywright"
      · subst h1
        simp [runSetups, setupPostMeCommunication, List.count_cons, h0]
      · by_cases h2 : n = "sendPageLog"
        · subst h2
          simp [runSetups, setupPostMeCommunication, List.count_cons, h0]
        · simp [runSetups, setupPostMeCommunication, List.count_cons, h0, h1, h2]

/-- C9: the host-callable bridge primitives are exposed at most once per page
over its whole lifetime — any sequence of `setupPostMeCommunication` calls
starting from a fresh page registers `sendToPlaywright` and `sendPageLog` at
most once each, thanks to the `functionsExposed` guard — and no reconnection
run (`handleUrlChange`) ever registers any bridge primitive. -/
theorem C9_expose_once :
    (∀ calls : List Bool,
      ((runSetups false calls).2.count (Effect.exposeFn "sendToPlaywright")) ≤ 1 ∧
      ((runSetups false calls).2.count (Effect.exposeFn "sendPageLog")) ≤ 1) ∧
    (∀ (m : Bool) (reconn : Option Bool) (env : HUEnv),
      noExpose (handleUrlChange m reconn env).effects = true) :=
  ⟨fun calls => ⟨runSetups_false_count_le "sendToPlaywright" calls,
                 runSetups_false_count_le "sendPageLog" calls⟩,
   handleUrlChange_noExpose⟩

/-! ### C10 -/

/-- C10: `enableUrlMonitoring` is idempotent — called on an already-enabled
monitor it returns the state unchanged (registering no second `framenavigated`
listener), and after any number of enable calls from the initial state at most
one listener is registered, so each navigation event is handled at most
once. -/
theorem C10_enable_idempotent :
    (∀ (l : Nat) (cu : Option String) (avail : Bool) (u : String),
      enableUrlMonitoring { enabled := true, listeners := l, currentUrl := cu } avail u =
        { enabled := true, listeners := l, currentUrl := cu }) ∧
    (∀ calls : List (Bool × String),
      (runEnables initMonitorState calls).listeners ≤ 1) := by
  constructor
  · intro l cu avail u
    simp [enableUrlMonitoring]
  · have key : ∀ (calls : List (Bool × String)) (s : MonitorState),
        (s.enabled = false ∧ s.listeners = 0) ∨
          (s.enabled = true ∧ s.listeners = 1) →
        ((runEnables s calls).enabled = false ∧ (runEnables s calls).listeners = 0) ∨
          ((runEnables s calls).enabled = true ∧ (runEnables s calls).listeners = 1) := by
      intro calls
      induction calls with
      | nil =>
        intro s hs
        simpa [runEnables] using hs
      | cons c cs ih =>
        intro s hs
        simp only [runEnables, List.foldl_cons] at *
        apply ih
        rcases hs with ⟨h1, h2⟩ | ⟨h1, h2⟩
        · cases hc1 : c.1 with
          | false =>
            left
            unfold enableUrlMonitoring
            simp [h1, hc1, h2]
          | true =>
            right
            unfold enableUrlMonitoring
            simp [h1, hc1, h2]
        · right
          unfold enableUrlMonitoring
          simp [h1, h2]
    intro calls
    rcases key calls initMonitorState (Or.inl ⟨rfl, rfl⟩) with ⟨-, h⟩ | ⟨-, h⟩ <;> omega

end CliskDevRunner
